import Mathlib

/-!
Shallow embedding of the device-aware token issuance and validation engine of
the AtrijumApi backend (src/src/auth/auth.service.ts, class AuthService).

Modelling conventions:
* The Token Store (the persisted `Jwt` rows) is a `List Jwt`; the loaded
  relation `user.jwtTokens` is the sublist of rows owned by the user.
* The list of `User` rows models the user table.
* `jwtService.signAsync(payload)` is external crypto; the freshly minted
  signed token is passed in as the `signedToken` argument.
* `jwtService.decode` is passed in as an abstract `decode` function.
* `bcrypt.compare` is passed in as an abstract `compare` function.
* A fallible persistence call (`Jwt.save`) is modelled by a `saveOk` flag,
  and `mailService.sendUserConfirmation` by a `mailOk` flag.
* A TypeScript method that can throw is an `Except AuthError _`, paired with
  the database state after the call (unchanged when the call throws before
  or during the failed write).
-/

namespace AtrijumApi

/-! ## Data model -/

/-- Device fingerprint data parsed from the User-Agent header
(decorator `UserAgentData`): os, platform and browser family. -/
structure UserAgentData where
  os : String
  platform : String
  browser : String
deriving DecidableEq, Repr

/-- A stored Session Token row (entity `Jwt`): device fingerprint fields,
the signed token string, and the owning user reference (modelled by id). -/
structure Jwt where
  os : String
  platform : String
  browser : String
  jwtToken : String
  userId : Nat
deriving DecidableEq, Repr

/-- A user row (entity `User`): id, unique email, password hash and the
nullable activation secret. -/
structure User where
  id : Nat
  email : String
  password : String
  activationSecret : Option String
deriving DecidableEq, Repr

/-- Decoded signed-token content (`JwtPayload`): user id, email and the
expiry claim in seconds. -/
structure JwtPayload where
  id : Nat
  email : String
  exp : Int
deriving DecidableEq, Repr

/-- The typed errors thrown by AuthService: NotFoundException,
UnauthorizedException, InternalServerErrorException. -/
inductive AuthError where
  | notFound
  | unauthorized
  | internalError
deriving DecidableEq, Repr

/-- The jwt part of the response DTO: `{ token, expiresAt }`. -/
structure JwtResDto where
  token : String
  expiresAt : Int
deriving DecidableEq, Repr

/-- Response DTO of signup/login/refresh (`UserResDto`): `{ jwt, user }`. -/
structure UserResDto where
  jwt : JwtResDto
  user : User
deriving DecidableEq, Repr

/-- Success DTO returned by logout (`SuccessDto`), HttpStatus.OK = 200. -/
structure SuccessDto where
  status : Nat
  message : String
deriving DecidableEq, Repr

/-! ## Token Store primitives -/

/-- The structural fingerprint match used by `issueJwtToken`:
`token.os === os && token.platform === platform && token.browser === browser`. -/
def matchesAgent (t : Jwt) (a : UserAgentData) : Bool :=
  t.os == a.os && t.platform == a.platform && t.browser == a.browser

/-- The rows of the Token Store owned by a user: the loaded
`user.jwtTokens` relation. -/
def userTokens (store : List Jwt) (uid : Nat) : List Jwt :=
  store.filter (fun t => t.userId == uid)

/-- A row belongs to the given (user, fingerprint) pair. -/
def isUserAgentRow (uid : Nat) (a : UserAgentData) (t : Jwt) : Bool :=
  t.userId == uid && matchesAgent t a

/-- Number of stored rows for a (user, fingerprint) pair. -/
def rowCount (store : List Jwt) (uid : Nat) (a : UserAgentData) : Nat :=
  (store.filter (isUserAgentRow uid a)).length

/-- Overwrite the first row satisfying `p` in place (`Jwt.save` of the row
object returned by `find` updates exactly that row, keyed by its identity). -/
def updateFirst (p : Jwt → Bool) (f : Jwt → Jwt) : List Jwt → List Jwt
  | [] => []
  | t :: ts => if p t then f t :: ts else t :: updateFirst p f ts

/-! ## AuthService operations -/

/-- AuthService.issueJwtToken (auth.service.ts lines 228-266).
Looks up the (user, fingerprint) row in `user.jwtTokens`; if found,
overwrites its token string; otherwise throws UnauthorizedException when
`preventCreation` is set, else builds a new row; then persists it with
`Jwt.save`, whose failure (`saveOk = false`) throws
InternalServerErrorException. Returns the signed token on success, paired
with the resulting store. -/
def issueJwtToken (store : List Jwt) (user : User) (a : UserAgentData)
    (signedToken : String) (preventCreation : Bool) (saveOk : Bool) :
    Except AuthError String × List Jwt :=
  match (userTokens store user.id).find? (fun t => matchesAgent t a) with
  | some _ =>
    if saveOk then
      (Except.ok signedToken,
       updateFirst (isUserAgentRow user.id a)
         (fun t => { t with jwtToken := signedToken }) store)
    else (Except.error AuthError.internalError, store)
  | none =>
    if preventCreation then (Except.error AuthError.unauthorized, store)
    else if saveOk then
      (Except.ok signedToken,
       store ++ [{ os := a.os, platform := a.platform, browser := a.browser,
                   jwtToken := signedToken, userId := user.id }])
    else (Except.error AuthError.internalError, store)

/-- AuthService.jwtExpiresAt (lines 275-279): decode the token and return
its `exp` claim converted from seconds to milliseconds. -/
def jwtExpiresAt (decode : String → JwtPayload) (jwtToken : String) : Int :=
  (decode jwtToken).exp * 1000

/-- AuthService.login (lines 158-168): issue a token with the default
`preventCreation = false` and wrap it with its expiry and the user. -/
def login (store : List Jwt) (user : User) (a : UserAgentData)
    (signedToken : String) (decode : String → JwtPayload) (saveOk : Bool) :
    Except AuthError UserResDto × List Jwt :=
  match issueJwtToken store user a signedToken false saveOk with
  | (Except.ok tok, store1) =>
    (Except.ok { jwt := { token := tok, expiresAt := jwtExpiresAt decode tok },
                 user := user }, store1)
  | (Except.error e, store1) => (Except.error e, store1)

/-- AuthService.refreshToken (lines 206-219): issue a token with
`preventCreation = true` and wrap it with its expiry and the user. -/
def refreshToken (store : List Jwt) (user : User) (a : UserAgentData)
    (signedToken : String) (decode : String → JwtPayload) (saveOk : Bool) :
    Except AuthError UserResDto × List Jwt :=
  match issueJwtToken store user a signedToken true saveOk with
  | (Except.ok tok, store1) =>
    (Except.ok { jwt := { token := tok, expiresAt := jwtExpiresAt decode tok },
                 user := user }, store1)
  | (Except.error e, store1) => (Except.error e, store1)

/-- AuthService.logout (lines 178-196): `Jwt.delete` removes every row
matching the (user, fingerprint) criteria and reports the affected count;
the method returns the success DTO only when `res.affected` is truthy and
otherwise falls through, resolving with `undefined` (modelled as `none`). -/
def logout (store : List Jwt) (user : User) (a : UserAgentData) :
    Option SuccessDto × List Jwt :=
  let remaining := store.filter (fun t => !(isUserAgentRow user.id a t))
  if rowCount store user.id a != 0 then
    (some { status := 200, message := "Successfully logged out." }, remaining)
  else (none, remaining)

/-- AuthService.validateJwt (lines 87-116). The user lookup by payload id
(`userService.findOne`, whose source is not in scope) is
Modelled from the spec: "look up user by payload id". Then the presented
raw token must equal the token string of some row in the user's full
`jwtTokens` collection, independently of fingerprint. -/
def validateJwt (users : List User) (store : List Jwt) (jwt : String)
    (payload : JwtPayload) : Except AuthError User :=
  match users.find? (fun u => u.id == payload.id) with
  | none => Except.error AuthError.notFound
  | some user =>
    match (userTokens store user.id).find? (fun t => t.jwtToken == jwt) with
    | none => Except.error AuthError.unauthorized
    | some _ => Except.ok user

/-- AuthService.validateUser (lines 51-77): look up the user by email
(NotFoundException if absent), then compare the submitted password with the
stored hash via `bcrypt.compare` (abstract `compare`); Unauthorized on
mismatch, the user on match. -/
def validateUser (users : List User) (compare : String → String → Bool)
    (email passwordInput : String) : Except AuthError User :=
  match users.find? (fun u => u.email == email) with
  | none => Except.error AuthError.notFound
  | some user =>
    if compare passwordInput user.password then Except.ok user
    else Except.error AuthError.unauthorized

/-- AuthService.signup (lines 126-148). `userService.create` and
`userService.delete` have no source in scope and are
Modelled from the spec: "create User (delegated)" appends the created row,
and the compensating delete removes the row with the created user's id.
Inside the try block the token is issued (`preventCreation = false`) and the
confirmation mail sent (`mailOk`); any failure rolls the user back and
throws InternalServerErrorException. -/
def signup (users : List User) (store : List Jwt) (newUser : User)
    (a : UserAgentData) (signedToken : String) (decode : String → JwtPayload)
    (saveOk mailOk : Bool) :
    Except AuthError UserResDto × (List User × List Jwt) :=
  let users1 := users ++ [newUser]
  match issueJwtToken store newUser a signedToken false saveOk with
  | (Except.ok tok, store1) =>
    if mailOk then
      (Except.ok { jwt := { token := tok, expiresAt := jwtExpiresAt decode tok },
                   user := newUser }, (users1, store1))
    else
      (Except.error AuthError.internalError,
       (users1.filter (fun u => u.id != newUser.id), store1))
  | (Except.error _, store1) =>
    (Except.error AuthError.internalError,
     (users1.filter (fun u => u.id != newUser.id), store1))

/-- Outcome of AuthService.activateUser: either the success message, or the
`BadRequestException` object RETURNED as the method's result value (the
code says `return new BadRequestException()`, it does not throw). -/
inductive ActivateOutcome where
  | activated (message : String)
  | badRequestReturned
deriving DecidableEq, Repr

/-- AuthService.activateUser (lines 281-294). `userService.update` has no
source in scope and is Modelled from the spec: "clear the activation-secret
field for the matching user" — every user row whose activationSecret equals
the criteria value is updated and the affected row count is reported. -/
def activateUser (users : List User) (secret : String) :
    ActivateOutcome × List User :=
  let affected := (users.filter (fun u => u.activationSecret == some secret)).length
  let users1 := users.map (fun u =>
    if u.activationSecret == some secret then { u with activationSecret := none }
    else u)
  if affected != 0 then
    (ActivateOutcome.activated "User is successfully activated", users1)
  else (ActivateOutcome.badRequestReturned, users1)

/-! ## Concrete sample values used by witnesses -/

/-- A sample device fingerprint. -/
def agentA : UserAgentData := { os := "mac", platform := "x64", browser := "safari" }

/-- A second, distinct sample device fingerprint. -/
def agentB : UserAgentData := { os := "linux", platform := "x64", browser := "firefox" }

/-- A sample user. -/
def userA : User :=
  { id := 1, email := "a@x.com", password := "hash1", activationSecret := none }

/-- A sample user holding an activation secret. -/
def userS : User :=
  { id := 2, email := "s@x.com", password := "hash2", activationSecret := some "sec" }

/-- The row created by issuing token "tokA" for userA on agentA. -/
def rowA : Jwt :=
  { os := "mac", platform := "x64", browser := "safari",
    jwtToken := "tokA", userId := 1 }

/-- A sample decode function: every token decodes to a payload with
exp = 5 seconds. -/
def decodeA : String → JwtPayload :=
  fun _ => { id := 1, email := "a@x.com", exp := 5 }

/-- A sample decoded payload carrying userA's id. -/
def payloadA : JwtPayload := { id := 1, email := "a@x.com", exp := 5 }

/-- A sample credential comparator: plain string equality. -/
def compareA : String → String → Bool := fun p h => p == h

/-! ## Helper lemmas -/

/-- Searching the user's own rows is searching the store with the combined
(ownership and match) predicate. -/
theorem userTokens_find? (store : List Jwt) (uid : Nat) (q : Jwt → Bool) :
    (userTokens store uid).find? q =
      store.find? (fun t => t.userId == uid && q t) := by
  induction store with
  | nil => rfl
  | cons t ts ih =>
    unfold userTokens at ih ⊢
    rw [List.filter_cons]
    by_cases h : (t.userId == uid) = true
    · rw [if_pos h]
      cases hq : q t
      · simp [List.find?_cons, hq, h, ih]
      · simp [List.find?_cons, hq, h]
    · have h' : (t.userId == uid) = false := by simpa using h
      simp [List.find?_cons, h', ih]

/-- A successful find? splits the list around the first match, and
updateFirst rewrites exactly that element. -/
theorem find?_updateFirst (p : Jwt → Bool) (f : Jwt → Jwt) (l : List Jwt)
    (r : Jwt) (h : l.find? p = some r) :
    ∃ l1 l2, l = l1 ++ r :: l2 ∧ (∀ x ∈ l1, p x = false) ∧ p r = true ∧
      updateFirst p f l = l1 ++ f r :: l2 := by
  induction l with
  | nil => simp at h
  | cons t ts ih =>
    cases hp : p t
    · simp only [List.find?_cons, hp] at h
      obtain ⟨l1, l2, hl, hall, hr, hupd⟩ := ih h
      refine ⟨t :: l1, l2, by simp [hl], ?_, hr, by simp [updateFirst, hp, hupd]⟩
      intro x hx
      rcases List.mem_cons.mp hx with rfl | hx
      · exact hp
      · exact hall x hx
    · simp only [List.find?_cons, hp, Option.some.injEq] at h
      subst h
      exact ⟨[], ts, rfl, by simp, hp, by simp [updateFirst, hp]⟩

/-- Rewriting the token string of a row does not change which
(user, fingerprint) pair it belongs to. -/
theorem isUserAgentRow_setToken (uid : Nat) (a : UserAgentData) (t : Jwt)
    (s : String) :
    isUserAgentRow uid a { t with jwtToken := s } = isUserAgentRow uid a t := rfl

/-- The lengths of a filter and of the complementary filter add up to the
length of the list. -/
theorem length_filter_add_length_filter_not (p : Jwt → Bool) (l : List Jwt) :
    (l.filter p).length + (l.filter (fun x => !(p x))).length = l.length := by
  induction l with
  | nil => rfl
  | cons t ts ih =>
    rw [List.filter_cons, List.filter_cons]
    cases hp : p t <;> simp [hp] <;> omega

/-- What a successful issuance does to the store: either the first
(user, fingerprint) row got its token string overwritten in place, or no
such row existed and a fresh row was appended. -/
theorem issueJwtToken_ok (store : List Jwt) (u : User) (a : UserAgentData)
    (tok : String) (b saveOk : Bool) (t : String) (s' : List Jwt)
    (h : issueJwtToken store u a tok b saveOk = (Except.ok t, s')) :
    t = tok ∧ saveOk = true ∧
      ((∃ l1 r l2, store.find? (isUserAgentRow u.id a) = some r ∧
          store = l1 ++ r :: l2 ∧
          (∀ x ∈ l1, isUserAgentRow u.id a x = false) ∧
          isUserAgentRow u.id a r = true ∧
          s' = l1 ++ { r with jwtToken := tok } :: l2) ∨
        ((∀ x ∈ store, isUserAgentRow u.id a x = false) ∧
          s' = store ++ [{ os := a.os, platform := a.platform,
                           browser := a.browser, jwtToken := tok,
                           userId := u.id }])) := by
  unfold issueJwtToken at h
  rw [userTokens_find?] at h
  have hpred : (fun t => t.userId == u.id && matchesAgent t a) =
      isUserAgentRow u.id a := rfl
  rw [hpred] at h
  cases hf : store.find? (isUserAgentRow u.id a) with
  | none =>
    rw [hf] at h
    cases b
    · cases saveOk
      · simp at h
      · simp only [Bool.false_eq_true, if_false, if_true, Prod.mk.injEq,
          Except.ok.injEq] at h
        obtain ⟨rfl, rfl⟩ := h
        refine ⟨rfl, rfl, Or.inr ⟨?_, rfl⟩⟩
        intro x hx
        have hx' := List.find?_eq_none.mp hf x hx
        simpa using hx'
    · simp at h
  | some r =>
    rw [hf] at h
    cases saveOk
    · simp at h
    · simp only [if_true, Prod.mk.injEq, Except.ok.injEq] at h
      obtain ⟨rfl, rfl⟩ := h
      obtain ⟨l1, l2, hl, hall, hr, hupd⟩ :=
        find?_updateFirst (isUserAgentRow u.id a)
          (fun x => { x with jwtToken := tok }) store r hf
      exact ⟨rfl, rfl, Or.inl ⟨l1, r, l2, rfl, hl, hall, hr, hupd⟩⟩

/-- After a successful issuance the (user, fingerprint) row count is the old
count when a row existed, and 1 when none did. -/
theorem rowCount_issueJwtToken (store : List Jwt) (u : User)
    (a : UserAgentData) (tok : String) (b saveOk : Bool) (t : String)
    (s' : List Jwt)
    (h : issueJwtToken store u a tok b saveOk = (Except.ok t, s')) :
    rowCount s' u.id a = max (rowCount store u.id a) 1 := by
  obtain ⟨-, -, hcase⟩ := issueJwtToken_ok store u a tok b saveOk t s' h
  rcases hcase with ⟨l1, r, l2, -, hl, hall, hr, hs'⟩ | ⟨hall, hs'⟩
  · have h1 : l1.filter (isUserAgentRow u.id a) = [] :=
      List.filter_eq_nil_iff.mpr (fun x hx => by simp [hall x hx])
    subst hl hs'
    unfold rowCount
    rw [List.filter_append, List.filter_append, List.filter_cons,
      List.filter_cons, isUserAgentRow_setToken, hr, h1]
    simp [Nat.max_eq_left]
  · have h0 : store.filter (isUserAgentRow u.id a) = [] :=
      List.filter_eq_nil_iff.mpr (fun x hx => by simp [hall x hx])
    subst hs'
    unfold rowCount
    rw [List.filter_append, h0]
    simp [isUserAgentRow, matchesAgent]

/-- Logout on a store with no matching row returns no success payload and
leaves the store unchanged. -/
theorem logout_no_match (store : List Jwt) (u : User) (a : UserAgentData)
    (h : rowCount store u.id a = 0) :
    logout store u a = (none, store) := by
  have hfix : store.filter (fun t => !(isUserAgentRow u.id a t)) = store := by
    apply List.filter_eq_self.mpr
    intro x hx
    unfold rowCount at h
    have := List.filter_eq_nil_iff.mp (List.length_eq_zero.mp h) x hx
    simpa using this
  unfold logout
  rw [h, hfix]
  rfl

/-! ## Claim theorems -/

/-- C2: the at-most-one-Session-Token-per-(user, fingerprint) invariant is
preserved by issuance: starting from a store with at most one row for the
pair, two successive successful issuances for the same user and fingerprint
(fingerprint equality being structural on os, platform and browser) leave
the row count for that pair at exactly 1 after each step — the second
issuance overwrites the existing row instead of creating a second one. -/
theorem issue_twice_rowCount (store : List Jwt) (u : User) (a : UserAgentData)
    (tok1 tok2 : String) (b1 b2 s1ok s2ok : Bool) (t1 t2 : String)
    (s1 s2 : List Jwt)
    (h0 : rowCount store u.id a ≤ 1)
    (h1 : issueJwtToken store u a tok1 b1 s1ok = (Except.ok t1, s1))
    (h2 : issueJwtToken s1 u a tok2 b2 s2ok = (Except.ok t2, s2)) :
    rowCount s1 u.id a = 1 ∧ rowCount s2 u.id a = 1 := by
  have e1 := rowCount_issueJwtToken store u a tok1 b1 s1ok t1 s1 h1
  have e2 := rowCount_issueJwtToken s1 u a tok2 b2 s2ok t2 s2 h2
  rcases Nat.le_one_iff_eq_zero_or_eq_one.mp h0 with h | h <;>
    rw [h] at e1 <;> simp at e1 <;> rw [e1] at e2 <;> simp at e2 <;>
    exact ⟨e1, e2⟩

/-- Witness for C2 at a concrete input: issuing "tokA" then "tokB" for
userA on agentA starting from the empty store keeps the row count at 1. -/
theorem issue_twice_rowCount_witness :
    rowCount [rowA] userA.id agentA = 1 ∧
      rowCount [{ rowA with jwtToken := "tokB" }] userA.id agentA = 1 :=
  issue_twice_rowCount [] userA agentA "tokA" "tokB" false false true true
    "tokA" "tokB" [rowA] [{ rowA with jwtToken := "tokB" }]
    (by decide) rfl rfl

/-- C3: refresh (issuance with preventCreation, i.e. allowCreate = false) on
a (user, fingerprint) pair with no stored Session Token fails with
Unauthorized and leaves the Token Store unchanged. -/
theorem refreshToken_unknown_device (store : List Jwt) (u : User)
    (a : UserAgentData) (tok : String) (decode : String → JwtPayload)
    (saveOk : Bool) (h : rowCount store u.id a = 0) :
    refreshToken store u a tok decode saveOk =
      (Except.error AuthError.unauthorized, store) := by
  unfold rowCount at h
  have hnil : store.filter (isUserAgentRow u.id a) = [] :=
    List.length_eq_zero.mp h
  have hnone : store.find? (isUserAgentRow u.id a) = none := by
    apply List.find?_eq_none.mpr
    intro x hx
    exact fun hc => by simpa [hc] using List.filter_eq_nil_iff.mp hnil x hx
  unfold refreshToken issueJwtToken
  rw [userTokens_find?]
  have hpred : (fun t => t.userId == u.id && matchesAgent t a) =
      isUserAgentRow u.id a := rfl
  rw [hpred, hnone]
  rfl

/-- Witness for C3 at a concrete input: refreshing for userA on the
never-seen agentB with one unrelated row stored fails with Unauthorized and
keeps the store as it was. -/
theorem refreshToken_unknown_device_witness :
    refreshToken [rowA] userA agentB "tokB" decodeA true =
      (Except.error AuthError.unauthorized, [rowA]) :=
  refreshToken_unknown_device [rowA] userA agentB "tokB" decodeA true rfl

/-- C8: write-then-read consistency of issuance. A successful issuance with
allowCreate returns exactly the signed token, and an immediately following
find on the resulting store for the same (user, fingerprint) returns a row
whose stored token string equals the returned one; and when the store write
fails, the call throws InternalError instead of returning a token. -/
theorem issue_write_then_read (store : List Jwt) (u : User)
    (a : UserAgentData) (tok : String) :
    (∀ t s', issueJwtToken store u a tok false true = (Except.ok t, s') →
      t = tok ∧
        ∃ r, (userTokens s' u.id).find? (fun x => matchesAgent x a) = some r ∧
          r.jwtToken = tok) ∧
    (issueJwtToken store u a tok false false).1 =
      Except.error AuthError.internalError := by
  constructor
  · intro t s' h
    obtain ⟨rfl, -, hcase⟩ := issueJwtToken_ok store u a tok false true t s' h
    refine ⟨rfl, ?_⟩
    rw [userTokens_find?]
    have hpred : (fun t => t.userId == u.id && matchesAgent t a) =
        isUserAgentRow u.id a := rfl
    rw [hpred]
    rcases hcase with ⟨l1, r, l2, -, hl, hall, hr, hs'⟩ | ⟨hall, hs'⟩
    · subst hs'
      refine ⟨{ r with jwtToken := t }, ?_, rfl⟩
      rw [List.find?_append]
      have h1 : l1.find? (isUserAgentRow u.id a) = none :=
        List.find?_eq_none.mpr (fun x hx => by simp [hall x hx])
      rw [h1]
      simp [List.find?_cons, isUserAgentRow_setToken, hr]
    · subst hs'
      refine ⟨{ os := a.os, platform := a.platform, browser := a.browser,
                jwtToken := t, userId := u.id }, ?_, rfl⟩
      rw [List.find?_append]
      have h1 : store.find? (isUserAgentRow u.id a) = none :=
        List.find?_eq_none.mpr (fun x hx => by simp [hall x hx])
      rw [h1]
      simp [List.find?_cons, isUserAgentRow, matchesAgent]
  · unfold issueJwtToken
    cases hf : (userTokens store u.id).find? (fun t => matchesAgent t a) <;>
      simp [hf]

/-- Witness for C8 at a concrete input: issuing "tokA" for userA on agentA
over the empty store persists a row holding exactly "tokA". -/
theorem issue_write_then_read_witness :
    "tokA" = "tokA" ∧
      ∃ r, (userTokens [rowA] userA.id).find? (fun x => matchesAgent x agentA) =
          some r ∧ r.jwtToken = "tokA" :=
  (issue_write_then_read [] userA agentA "tokA").1 "tokA" [rowA] rfl

/-- C9: frame property of re-issuance on a known device. When issuance finds
an existing row for the (user, fingerprint) pair, the store splits around
that row; only its token-string field is rewritten — os, platform, browser
and the owning-user reference are kept — and every other row (other users,
other fingerprints) is left exactly as it was. -/
theorem issue_known_device_frame (store : List Jwt) (u : User)
    (a : UserAgentData) (tok : String) (b saveOk : Bool) (r : Jwt)
    (t : String) (s' : List Jwt)
    (hfind : store.find? (isUserAgentRow u.id a) = some r)
    (h : issueJwtToken store u a tok b saveOk = (Except.ok t, s')) :
    ∃ l1 l2, store = l1 ++ r :: l2 ∧
      (∀ x ∈ l1, isUserAgentRow u.id a x = false) ∧
      isUserAgentRow u.id a r = true ∧
      s' = l1 ++ { r with jwtToken := tok } :: l2 := by
  obtain ⟨-, -, hcase⟩ := issueJwtToken_ok store u a tok b saveOk t s' h
  rcases hcase with ⟨l1, r', l2, hfind', hl, hall, hr, hs'⟩ | ⟨hall, -⟩
  · rw [hfind] at hfind'
    obtain rfl : r' = r := by simpa using hfind'.symm
    exact ⟨l1, l2, hl, hall, hr, hs'⟩
  · rw [List.find?_eq_none.mpr (fun x hx => by simp [hall x hx])] at hfind
    simp at hfind

/-- Witness for C9 at a concrete input: re-issuing "tokB" for userA on the
known agentA rewrites only the token string of its single row. -/
theorem issue_known_device_frame_witness :
    ∃ l1 l2, [rowA] = l1 ++ rowA :: l2 ∧
      (∀ x ∈ l1, isUserAgentRow userA.id agentA x = false) ∧
      isUserAgentRow userA.id agentA rowA = true ∧
      [{ rowA with jwtToken := "tokB" }] =
        l1 ++ { rowA with jwtToken := "tokB" } :: l2 :=
  issue_known_device_frame [rowA] userA agentA "tokB" false true rowA "tokB"
    [{ rowA with jwtToken := "tokB" }] rfl rfl

/-- C1: token validation. If no user carries the payload id, validateJwt
fails with NotFound; if the user exists, it succeeds returning that user
exactly when the presented raw token string equals the token string of some
stored Session Token belonging to the user — regardless of which device
fingerprint that row was stored under — and fails with Unauthorized when no
stored token of the user matches. -/
theorem validateJwt_spec (users : List User) (store : List Jwt)
    (jwt : String) (payload : JwtPayload) :
    (users.find? (fun u => u.id == payload.id) = none →
      validateJwt users store jwt payload = Except.error AuthError.notFound) ∧
    (∀ u, users.find? (fun x => x.id == payload.id) = some u →
      ((∃ tk ∈ store, tk.userId = u.id ∧ tk.jwtToken = jwt) →
        validateJwt users store jwt payload = Except.ok u) ∧
      ((∀ tk ∈ store, tk.userId = u.id → tk.jwtToken ≠ jwt) →
        validateJwt users store jwt payload =
          Except.error AuthError.unauthorized)) := by
  constructor
  · intro hu
    unfold validateJwt
    rw [hu]
  · intro u hu
    have hred : validateJwt users store jwt payload =
        match store.find? (fun t => t.userId == u.id && t.jwtToken == jwt) with
        | none => Except.error AuthError.unauthorized
        | some _ => Except.ok u := by
      unfold validateJwt
      rw [hu, ← userTokens_find?]
    constructor
    · rintro ⟨tk, htk, hid, htok⟩
      rw [hred]
      cases hf : store.find? (fun t => t.userId == u.id && t.jwtToken == jwt) with
      | none =>
        have := List.find?_eq_none.mp hf tk htk
        simp [hid, htok] at this
      | some w => rfl
    · intro hnot
      rw [hred, List.find?_eq_none.mpr ?_]
      intro x hx
      intro hc
      simp only [Bool.and_eq_true, beq_iff_eq] at hc
      exact hnot x hx hc.1 hc.2

/-- Witness for C1 at a concrete input: with userA owning the stored row
rowA, presenting its token string "tokA" validates to userA. -/
theorem validateJwt_spec_witness :
    validateJwt [userA] [rowA] "tokA" payloadA = Except.ok userA :=
  ((validateJwt_spec [userA] [rowA] "tokA" payloadA).2 userA rfl).1
    ⟨rowA, by decide⟩

/-- C5: credential validation on login. If no user carries the submitted
email, validateUser fails with NotFound; if the user exists, it returns the
user when the password comparison against the stored hash succeeds and
fails with Unauthorized when it does not. -/
theorem validateUser_spec (users : List User)
    (compare : String → String → Bool) (email passwordInput : String) :
    (users.find? (fun u => u.email == email) = none →
      validateUser users compare email passwordInput =
        Except.error AuthError.notFound) ∧
    (∀ u, users.find? (fun x => x.email == email) = some u →
      (compare passwordInput u.password = true →
        validateUser users compare email passwordInput = Except.ok u) ∧
      (compare passwordInput u.password = false →
        validateUser users compare email passwordInput =
          Except.error AuthError.unauthorized)) := by
  constructor
  · intro hu
    unfold validateUser
    rw [hu]
  · intro u hu
    have hred : validateUser users compare email passwordInput =
        if compare passwordInput u.password = true then Except.ok u
        else Except.error AuthError.unauthorized := by
      unfold validateUser
      rw [hu]
    constructor
    · intro hc
      rw [hred, if_pos hc]
    · intro hc
      rw [hred, if_neg (by simp [hc])]

/-- Witness for C5 at a concrete input: userA with stored hash "hash1" and
an equality comparator validates with password "hash1". -/
theorem validateUser_spec_witness :
    validateUser [userA] compareA "a@x.com" "hash1" = Except.ok userA :=
  ((validateUser_spec [userA] compareA "a@x.com" "hash1").2 userA rfl).1 rfl

/-- C4 counterexample: the claim says a logout with no matching Session
Token returns a success result; on the code, after issuing for
(userA, agentA) and logging out once, a second logout resolves with no
success DTO at all (undefined, modelled as none). -/
theorem logout_second_counterexample :
    issueJwtToken [] userA agentA "tokA" false true =
        (Except.ok "tokA", [rowA]) ∧
      logout [rowA] userA agentA =
        (some { status := 200, message := "Successfully logged out." }, []) ∧
      (logout [] userA agentA).1 = none :=
  ⟨rfl, rfl, rfl⟩

/-- C4 (amended): logout after a successful issuance for the pair removes
exactly one stored row and returns a success result; a second logout — or
any logout when no matching Session Token exists — raises no error but
resolves with no success payload (undefined) and leaves the store
unchanged. -/
theorem logout_spec (store : List Jwt) (u : User) (a : UserAgentData)
    (tok : String) (b : Bool) (t : String) (s1 : List Jwt)
    (h0 : rowCount store u.id a ≤ 1)
    (h1 : issueJwtToken store u a tok b true = (Except.ok t, s1)) :
    (∃ d, (logout s1 u a).1 = some d) ∧
      (logout s1 u a).2.length + 1 = s1.length ∧
      logout (logout s1 u a).2 u a = (none, (logout s1 u a).2) := by
  have e1 := rowCount_issueJwtToken store u a tok b true t s1 h1
  have hc1 : rowCount s1 u.id a = 1 := by
    rcases Nat.le_one_iff_eq_zero_or_eq_one.mp h0 with h | h <;>
      rw [h] at e1 <;> simpa using e1
  have hlen := length_filter_add_length_filter_not (isUserAgentRow u.id a) s1
  have hrem : (logout s1 u a).2 =
      s1.filter (fun x => !(isUserAgentRow u.id a x)) := by
    unfold logout
    cases hd : rowCount s1 u.id a != 0 <;> simp [hd]
  have hrc0 : rowCount (logout s1 u a).2 u.id a = 0 := by
    rw [hrem]
    unfold rowCount
    rw [List.filter_filter]
    simp
  refine ⟨?_, ?_, logout_no_match (logout s1 u a).2 u a hrc0⟩
  · unfold logout
    rw [hc1]
    exact ⟨_, rfl⟩
  · rw [hrem]
    unfold rowCount at hc1
    omega

/-- Witness for C4's amended claim at a concrete input: after issuing
"tokA" on the empty store, the first logout removes the single row and the
second one resolves with none and changes nothing. -/
theorem logout_spec_witness :
    (∃ d, (logout [rowA] userA agentA).1 = some d) ∧
      (logout [rowA] userA agentA).2.length + 1 = [rowA].length ∧
      logout (logout [rowA] userA agentA).2 userA agentA =
        (none, (logout [rowA] userA agentA).2) :=
  logout_spec [] userA agentA "tokA" false "tokA" [rowA] (by decide) rfl

/-- C7 counterexample: the claim says a missing activation secret causes a
BadRequest error to be raised; on the code, activateUser with a secret held
by no user RETURNS the BadRequestException object as its result value (it
is never thrown) and leaves the user table unchanged. -/
theorem activate_no_match_counterexample :
    activateUser [userS] "nope" =
      (ActivateOutcome.badRequestReturned, [userS]) := rfl

/-- C7 (amended): activate(S) clears the activation-secret of the matching
users and reports success; when no user holds secret S, a
BadRequestException object is returned as the call's result value — no
error is raised — and no user record is changed. -/
theorem activateUser_spec (users : List User) (secret : String) :
    ((∃ u ∈ users, u.activationSecret = some secret) →
      activateUser users secret =
        (ActivateOutcome.activated "User is successfully activated",
         users.map (fun u =>
           if u.activationSecret == some secret then
             { u with activationSecret := none }
           else u))) ∧
    ((∀ u ∈ users, u.activationSecret ≠ some secret) →
      activateUser users secret =
        (ActivateOutcome.badRequestReturned, users)) := by
  constructor
  · rintro ⟨u, hu, hsec⟩
    have hmem : u ∈ users.filter (fun x => x.activationSecret == some secret) :=
      List.mem_filter.mpr ⟨hu, by simp [hsec]⟩
    have hpos : (users.filter (fun x => x.activationSecret == some secret)).length ≠ 0 := by
      intro h0
      rw [List.length_eq_zero.mp h0] at hmem
      simp at hmem
    unfold activateUser
    rw [if_pos (by simpa using hpos)]
  · intro hnot
    unfold activateUser
    have hnil : users.filter (fun x => x.activationSecret == some secret) = [] :=
      List.filter_eq_nil_iff.mpr (fun u hu => by simp [hnot u hu])
    have hmap : users.map (fun u =>
        if u.activationSecret == some secret then
          { u with activationSecret := none }
        else u) = users := by
      have := List.map_congr_left (l := users)
        (f := fun u => if u.activationSecret == some secret then
          { u with activationSecret := none } else u) (g := id)
        (fun u hu => by simp [hnot u hu])
      simpa using this
    rw [hnil, hmap]
    rfl

/-- Witness for C7's amended claim at a concrete input: activating with the
secret held by userS clears that user's activation secret and succeeds. -/
theorem activateUser_spec_witness :
    activateUser [userS] "sec" =
      (ActivateOutcome.activated "User is successfully activated",
       [userS].map (fun u =>
         if u.activationSecret == some "sec" then
           { u with activationSecret := none }
         else u)) :=
  (activateUser_spec [userS] "sec").1 ⟨userS, by decide⟩

/-- C6: the signup compensating rollback. For a fresh user (id unused by
any existing user row or token row), when both token issuance (the store
write) and the confirmation mail succeed, signup returns the created user
and the issued token with its expiry and the user stays created; when the
issuance or the mail dispatch fails, the created user row is deleted again
and the call surfaces an InternalError. -/
theorem signup_saga (users : List User) (store : List Jwt) (newUser : User)
    (a : UserAgentData) (tok : String) (decode : String → JwtPayload)
    (saveOk mailOk : Bool)
    (hU : ∀ u ∈ users, u.id ≠ newUser.id)
    (hT : ∀ t ∈ store, t.userId ≠ newUser.id) :
    (saveOk = true → mailOk = true →
      signup users store newUser a tok decode saveOk mailOk =
        (Except.ok { jwt := { token := tok,
                              expiresAt := (decode tok).exp * 1000 },
                     user := newUser },
         (users ++ [newUser],
          store ++ [{ os := a.os, platform := a.platform, browser := a.browser,
                      jwtToken := tok, userId := newUser.id }]))) ∧
    (saveOk = false ∨ mailOk = false →
      (signup users store newUser a tok decode saveOk mailOk).1 =
          Except.error AuthError.internalError ∧
        (signup users store newUser a tok decode saveOk mailOk).2.1 =
          users) := by
  have hempty : userTokens store newUser.id = [] :=
    List.filter_eq_nil_iff.mpr (fun t ht => by simp [hT t ht])
  have hnone : (userTokens store newUser.id).find?
      (fun t => matchesAgent t a) = none := by
    rw [hempty]
    rfl
  have hfilter : (users ++ [newUser]).filter (fun u => u.id != newUser.id) =
      users := by
    rw [List.filter_append]
    have h1 : users.filter (fun u => u.id != newUser.id) = users :=
      List.filter_eq_self.mpr (fun u hu => by simp [hU u hu])
    have h2 : [newUser].filter (fun u => u.id != newUser.id) = [] := by simp
    rw [h1, h2, List.append_nil]
  constructor
  · rintro rfl rfl
    unfold signup issueJwtToken
    rw [hnone]
    rfl
  · rintro (rfl | rfl)
    · unfold signup issueJwtToken
      rw [hnone]
      exact ⟨rfl, hfilter⟩
    · cases saveOk
      · unfold signup issueJwtToken
        rw [hnone]
        exact ⟨rfl, hfilter⟩
      · unfold signup issueJwtToken
        rw [hnone]
        exact ⟨rfl, hfilter⟩

/-- Witness for C6 at a concrete input: a fully successful signup of userA
on agentA returns the token with its expiry and keeps the created user. -/
theorem signup_saga_witness :
    signup [] [] userA agentA "tokA" decodeA true true =
      (Except.ok { jwt := { token := "tokA",
                            expiresAt := (decodeA "tokA").exp * 1000 },
                   user := userA },
       ([userA], [rowA])) :=
  (signup_saga [] [] userA agentA "tokA" decodeA true true
    (by simp) (by simp)).1 rfl rfl

/-- C10: for every decode function, the expiresAt value returned to clients
by login, refresh and signup equals the decoded payload's exp claim (in
seconds) times 1000. -/
theorem response_expiresAt (users : List User) (store : List Jwt)
    (u newUser : User) (a : UserAgentData) (tok : String)
    (decode : String → JwtPayload) (saveOk mailOk : Bool) :
    (∀ res s1, login store u a tok decode saveOk = (Except.ok res, s1) →
      res.jwt.expiresAt = (decode res.jwt.token).exp * 1000) ∧
    (∀ res s1, refreshToken store u a tok decode saveOk =
        (Except.ok res, s1) →
      res.jwt.expiresAt = (decode res.jwt.token).exp * 1000) ∧
    (∀ res s2, signup users store newUser a tok decode saveOk mailOk =
        (Except.ok res, s2) →
      res.jwt.expiresAt = (decode res.jwt.token).exp * 1000) := by
  refine ⟨?_, ?_, ?_⟩
  · intro res s1 h
    unfold login at h
    rcases hiss : issueJwtToken store u a tok false saveOk with ⟨fst, snd⟩
    rw [hiss] at h
    cases fst with
    | ok t1 =>
      simp only [Prod.mk.injEq, Except.ok.injEq] at h
      obtain ⟨rfl, rfl⟩ := h
      simp [jwtExpiresAt]
    | error e => simp at h
  · intro res s1 h
    unfold refreshToken at h
    rcases hiss : issueJwtToken store u a tok true saveOk with ⟨fst, snd⟩
    rw [hiss] at h
    cases fst with
    | ok t1 =>
      simp only [Prod.mk.injEq, Except.ok.injEq] at h
      obtain ⟨rfl, rfl⟩ := h
      simp [jwtExpiresAt]
    | error e => simp at h
  · intro res s2 h
    unfold signup at h
    rcases hiss : issueJwtToken store newUser a tok false saveOk with ⟨fst, snd⟩
    rw [hiss] at h
    cases fst with
    | ok t1 =>
      cases mailOk
      · simp at h
      · simp at h
        obtain ⟨h1, -⟩ := h
        subst h1
        simp [jwtExpiresAt]
    | error e => simp at h

/-- Witness for C10 at a concrete input: the login response for userA under
decodeA reports expiresAt = 5 * 1000. -/
theorem response_expiresAt_witness :
    ({ jwt := { token := "tokA", expiresAt := 5000 },
       user := userA } : UserResDto).jwt.expiresAt =
      (decodeA "tokA").exp * 1000 :=
  (response_expiresAt [] [] userA userA agentA "tokA" decodeA true
      true).1
    { jwt := { token := "tokA", expiresAt := 5000 }, user := userA }
    [rowA] rfl

end AtrijumApi
